import Mathlib

/-!
Shallow embedding of the ACP console client and proxy service
(`src/acp/client.py` and `src/acp/service.py` of strato-space/ai-telegram).

Python strings are modelled as Lean `String`, timestamps as `Nat` values
supplied by the caller (the code reads the current UTC clock; monotonicity
of successive readings is a hypothesis where a claim needs it), and the
SQLite table `acp_sessions (chat_id PRIMARY KEY, session_id, updated_at)`
as an association list updated in place on its key.
-/

/-- Python truthiness of an optional string: `None` and `""` are falsy. -/
def optTruthy : Option String → Bool
  | none => false
  | some s => !s.isEmpty

/-- Python `str.lstrip("\n")`: drop leading newline characters. -/
def lstripNewlines (s : String) : String := ⟨s.data.dropWhile (· == '\n')⟩

/-- Python `not s.strip()`: the string contains only whitespace (or is empty). -/
def allWhitespace (s : String) : Bool := s.data.all (fun c => c.isWhitespace)

/-- Python `f"{x}"` for an optional string local variable (`None` prints as `None`). -/
def pyShowOptStr : Option String → String
  | none => "None"
  | some s => s

/-- List-of-characters substring test, used to model Python's `in` on `str`. -/
def subOfChars (needle : List Char) : List Char → Bool
  | [] => needle.isEmpty
  | c :: rest => needle.isPrefixOf (c :: rest) || subOfChars needle rest

/-- Python `needle in hay` for strings. -/
def strHasSub (hay needle : String) : Bool := subOfChars needle.data hay.data

/-! ## Session mapping store (`SessionStore`, client.py lines 56-111)

Rows of the `acp_sessions` table: `(chat_id, session_id, updated_at)`.
`upsert` is the `INSERT ... ON CONFLICT(chat_id) DO UPDATE` statement:
update the row carrying the key when present, append a new row otherwise.
The `updated_at` timestamp is the current clock reading, passed in by the
caller as a `Nat` (the code formats `datetime.now(timezone.utc)`). -/
structure Store where
  rows : List (String × String × Nat)
deriving DecidableEq, Repr

def Store.empty : Store := ⟨[]⟩

/-- Model of `SessionStore.get`: `SELECT ... WHERE chat_id = ?` (first matching row). -/
def Store.get (s : Store) (chat : String) : Option (String × Nat) :=
  match s.rows.find? (fun r => r.1 == chat) with
  | some r => some (r.2.1, r.2.2)
  | none => none

def upsertRows : List (String × String × Nat) → String → String → Nat →
    List (String × String × Nat)
  | [], chat, sid, now => [(chat, sid, now)]
  | r :: rs, chat, sid, now =>
    if r.1 == chat then (chat, sid, now) :: rs
    else r :: upsertRows rs chat sid now

/-- Model of `SessionStore.upsert`: insert-or-update on the `chat_id` primary key,
always writing `updated_at := now`. -/
def Store.upsert (s : Store) (chat sid : String) (now : Nat) : Store :=
  ⟨upsertRows s.rows chat sid now⟩

/-- At most one row per chat id (the `PRIMARY KEY` invariant). -/
def Store.keysNodup (s : Store) : Prop := (s.rows.map (fun r => r.1)).Nodup

instance (s : Store) : Decidable s.keysNodup := by
  unfold Store.keysNodup; infer_instance

/-! ## Streamed chunk delivery (`session_update`, service.py lines 62-76 and
client.py lines 135-153, `agent_message_chunk` branch)

State: the `started_output` flag of the `ActiveRequest` (service) or of the
console client. A chunk with empty text is skipped outright (`if text:`).
If `strip_leading_newlines` is set and no output has started, leading
newlines are stripped; when nothing remains the handler returns without
setting `started_output`, so the next chunk is still treated as first. -/
def service_deliver_chunk (strip started : Bool) (text : String) :
    Bool × Option String :=
  if text.isEmpty then (started, none)
  else if strip && !started then
    let t := lstripNewlines text
    if t.isEmpty then (started, none) else (true, some t)
  else (true, some text)

/-- Console-client variant of the chunk branch (client.py lines 137-148);
the delivered text and `started_output` transitions are the same. -/
def console_deliver_chunk (strip started : Bool) (text : String) :
    Bool × Option String :=
  if text.isEmpty then (started, none)
  else if strip && !started then
    let t := lstripNewlines text
    if t.isEmpty then (started, none) else (true, some t)
  else (true, some text)

/-- Texts delivered to the client across a sequence of chunk updates. -/
def service_deliver_stream (strip : Bool) : Bool → List String → List String
  | _, [] => []
  | started, c :: cs =>
    match service_deliver_chunk strip started c with
    | (st, some t) => t :: service_deliver_stream strip st cs
    | (st, none) => service_deliver_stream strip st cs

def console_deliver_stream (strip : Bool) : Bool → List String → List String
  | _, [] => []
  | started, c :: cs =>
    match console_deliver_chunk strip started c with
    | (st, some t) => t :: console_deliver_stream strip st cs
    | (st, none) => console_deliver_stream strip st cs

/-! ## Permission negotiation

`PermResult` models `RequestPermissionResponse`: `selected` is
`AllowedOutcome(option_id, outcome="selected")`, `cancelled` is
`DeniedOutcome(outcome="cancelled")`. `POpt` is a `PermissionOption`
`{option_id, name}`. Interactive input is modelled as the list of lines
read from stdin; `readline` at end of input returns `""` (EOF). -/
inductive PermResult
  | selected (optionId : String)
  | cancelled
deriving DecidableEq, Repr

structure POpt where
  option_id : String
  name : String
deriving DecidableEq, Repr

/-- Proxy-service outbound socket messages (service to client). -/
inductive SockMsg
  | chunkMsg (text : String)
  | toolMsg (event : String) (title : Option String)
  | permissionRequest (title : String) (options : List POpt)
  | errorMsg (message : String)
  | doneMsg (sessionId : String)
deriving DecidableEq, Repr

/-- Python `_read_choice`: read one line and `.strip()` it; EOF reads `""`. -/
def read_choice : List String → String × List String
  | [] => ("", [])
  | l :: rest => (l.trim, rest)

/-- The console `index_map`: `str(idx)` (1-based) to `option_id`, all options. -/
def indexLookup (options : List POpt) (choice : String) : Option String :=
  (options.enum.find? (fun p => toString (p.1 + 1) == choice)).map
    (fun p => p.2.option_id)

/-- Console `_select_permission_option` (client.py lines 264-283): up to 3
attempts; empty input re-prompts, a known option id or 1-based index
selects, unrecognized input emits a diagnostic and re-prompts; after the
attempts are exhausted the resolution is `None` (denial). -/
def select_permission_option (options : List POpt) :
    Nat → List String → Option String × List String
  | 0, input => (none, input)
  | n + 1, input =>
    let (choice, rest) := read_choice input
    if choice.isEmpty then select_permission_option options n rest
    else if options.any (fun o => o.option_id == choice) then (some choice, rest)
    else
      match indexLookup options choice with
      | some oid => (some oid, rest)
      | none => select_permission_option options n rest

/-- Console-client output-stream flags (client.py `_needs_newline`,
`_chunk_delimeter_active`). -/
structure ConsoleSt where
  needs_newline : Bool
  chunk_delim_active : Bool
deriving DecidableEq, Repr

/-- Writes performed on the output and error streams. -/
structure ConsoleOut where
  outWrites : List String
  errWrites : List String
deriving DecidableEq, Repr

/-- Model of `AcpConsoleClient.request_permission` (client.py lines 163-199).
Before resolving, the client flushes the chunk delimiter (a newline on the
error stream if active) and terminates a pending partial output line (a
newline on the output stream if `_needs_newline`). Then: auto-approval
selects `allow_always`/`allow_once`; without a TTY it selects
`"reject_once"` unconditionally (no check against the offered options);
otherwise it lists the options on the error stream and reads input.
Returns the resolution, the updated flags, the writes performed, and the
remaining input (unread lines). -/
def console_request_permission (auto allow_always tty : Bool) (st : ConsoleSt)
    (title : String) (options : List POpt) (input : List String) :
    PermResult × ConsoleSt × ConsoleOut × List String :=
  let errW : List String := if st.chunk_delim_active then ["\n"] else []
  let outW : List String := if st.needs_newline then ["\n"] else []
  let st1 : ConsoleSt := ⟨false, false⟩
  if auto then
    (.selected (if allow_always then "allow_always" else "allow_once"),
      st1, ⟨outW, errW⟩, input)
  else if !tty then
    (.selected "reject_once", st1, ⟨outW, errW⟩, input)
  else
    let header := ("\nPermission required: " ++ title ++ "\n") ::
      options.enum.map (fun p =>
        "  " ++ toString (p.1 + 1) ++ ") " ++ p.2.name ++ " (" ++
          p.2.option_id ++ ")\n")
    match select_permission_option options 3 input with
    | (some oid, rest) => (.selected oid, st1, ⟨outW, errW ++ header⟩, rest)
    | (none, rest) => (.cancelled, st1, ⟨outW, errW ++ header⟩, rest)

/-- The `ActiveRequest` fields that drive service-side permission
resolution. -/
structure ARCfg where
  auto_approve : Bool
  allow_always : Bool
deriving DecidableEq, Repr

/-- Model of `AcpServiceClient.request_permission` (service.py lines 90-121). With no
attached request: denial. Auto-approval selects without sending anything.
Otherwise a `permission_request` message goes out and the answer from the
permission queue decides (`None` or `""` means denial). Returns the
resolution and the socket messages sent. -/
def service_request_permission (active : Option ARCfg) (title : String)
    (options : List POpt) (answer : Option String) : PermResult × List SockMsg :=
  match active with
  | none => (.cancelled, [])
  | some cfg =>
    if cfg.auto_approve then
      (.selected (if cfg.allow_always then "allow_always" else "allow_once"), [])
    else
      let sent := [SockMsg.permissionRequest title options]
      match answer with
      | some oid => if oid.isEmpty then (.cancelled, sent) else (.selected oid, sent)
      | none => (.cancelled, sent)

/-- The socket front end's `index_map` (client.py lines 313-317): 1-based
index to option id, skipping options whose id is falsy. -/
def indexLookupSocket (options : List POpt) (choice : String) : Option String :=
  (options.enum.find? (fun p =>
      !p.2.option_id.isEmpty && toString (p.1 + 1) == choice)).map
    (fun p => p.2.option_id)

/-- Socket front end `_select_permission_option_id` (client.py lines
308-331): same retry loop as the console variant, over option dicts with
falsy ids filtered out of both maps. -/
def select_permission_option_id (options : List POpt) :
    Nat → List String → Option String × List String
  | 0, input => (none, input)
  | n + 1, input =>
    let (choice, rest) := read_choice input
    if choice.isEmpty then select_permission_option_id options n rest
    else if options.any (fun o => !o.option_id.isEmpty && o.option_id == choice) then
      (some choice, rest)
    else
      match indexLookupSocket options choice with
      | some oid => (some oid, rest)
      | none => select_permission_option_id options n rest

/-- The socket front end's handling of a `permission_request` message
(client.py lines 492-527): the `option_id` it sends back in the
`permission_response`, plus the remaining interactive input. Auto-approval
answers `allow_always`/`allow_once`; without a TTY it answers
`"reject_once"` when such an option is offered and `None` (no selection)
otherwise; with a TTY it prompts interactively. -/
def socket_permission_answer (auto allow_always tty : Bool) (options : List POpt)
    (input : List String) : Option String × List String :=
  if auto || allow_always then
    (some (if allow_always then "allow_always" else "allow_once"), input)
  else if !tty then
    if options.any (fun o => o.option_id == "reject_once") then
      (some "reject_once", input)
    else (none, input)
  else
    select_permission_option_id options 3 input

/-! ## First-message validation in `handle_client` (service.py lines 337-391)

A JSON field value: `fMissing` means the key is absent, the others are the
JSON scalar types the validation code distinguishes. `_read_message`
returns `None` on EOF and on a `json.JSONDecodeError`, modelled as the
`none` case; a parsed empty object `{}` is falsy in Python, so
`if not message:` also closes silently for it (`RawMsg.isEmptyObj`). -/
inductive FVal
  | fMissing
  | fNull
  | fStr (s : String)
  | fNum (n : Int)
  | fBool (b : Bool)
deriving DecidableEq, Repr

def pyTruthy : FVal → Bool
  | .fMissing => false
  | .fNull => false
  | .fStr s => !s.isEmpty
  | .fNum n => n != 0
  | .fBool b => b

def pyStr : FVal → String
  | .fMissing => "None"
  | .fNull => "None"
  | .fStr s => s
  | .fNum n => toString n
  | .fBool b => if b then "True" else "False"

/-- Python `str(message.get(k) or "")`. -/
def pyStrOrEmpty (v : FVal) : String := if pyTruthy v then pyStr v else ""

/-- Python `message.get("mode_id") or None` (a string when truthy). -/
def modeOf (v : FVal) : Option String := if pyTruthy v then some (pyStr v) else none

/-- The first client message as a JSON object: the fields `handle_client`
reads, plus whether the object carries any other keys (so that emptiness,
hence Python falsiness, is determined). -/
structure RawMsg where
  type : FVal
  session_id : FVal
  prompt : FVal
  mode_id : FVal
  auto_approve : FVal
  allow_always : FVal
  show_tools : FVal
  strip_leading_newlines : FVal
  hasOtherKeys : Bool
deriving DecidableEq, Repr

def RawMsg.isEmptyObj (m : RawMsg) : Bool :=
  !m.hasOtherKeys && m.type == .fMissing && m.session_id == .fMissing &&
  m.prompt == .fMissing && m.mode_id == .fMissing && m.auto_approve == .fMissing &&
  m.allow_always == .fMissing && m.show_tools == .fMissing &&
  m.strip_leading_newlines == .fMissing

/-- Result of the validation prologue of `handle_client`: close without any
message (`if not message:`), send one error message and close, or proceed
into the prompt cycle with the decoded request. -/
inductive HCOutcome
  | silentClose
  | errorClose (message : String)
  | proceed (sessionId : Option String) (promptText : String)
      (modeId : Option String)
      (auto_approve allow_always show_tools strip_leading_newlines : Bool)
deriving DecidableEq, Repr

/-- The validation prologue of `handle_client` (service.py lines 349-391):
reject non-`prompt` messages, missing/empty prompt text, and a
`session_id` that is neither a string nor null; normalize a
whitespace-only `session_id` string to null. -/
def handle_validate : Option RawMsg → HCOutcome
  | none => .silentClose
  | some m =>
    if m.isEmptyObj then .silentClose
    else if m.type != FVal.fStr "prompt" then .errorClose "Expected prompt request."
    else
      let p := pyStrOrEmpty m.prompt
      if p.isEmpty then .errorClose "prompt is required."
      else
        match m.session_id with
        | .fNum _ => .errorClose "session_id must be a string or null."
        | .fBool _ => .errorClose "session_id must be a string or null."
        | sidv =>
          let sid : Option String :=
            match sidv with
            | .fStr s => if allWhitespace s then none else some s
            | _ => none
          .proceed sid p (modeOf m.mode_id) (pyTruthy m.auto_approve)
            (pyTruthy m.allow_always) (pyTruthy m.show_tools)
            (pyTruthy m.strip_leading_newlines)

/-- Messages the service sends before (instead of) a prompt cycle. -/
def prelude_messages : HCOutcome → List SockMsg
  | .silentClose => []
  | .errorClose e => [SockMsg.errorMsg e]
  | .proceed _ _ _ _ _ _ _ => []

/-- Whether the outcome drives a prompt cycle. -/
def drives_cycle : HCOutcome → Bool
  | .proceed _ _ _ _ _ _ _ => true
  | _ => false

/-- The error text `handle_client` replies with for a wrong-typed prompt
message, following the branch order of service.py lines 353-375. -/
def validationErrText (m : RawMsg) : String :=
  if m.type != FVal.fStr "prompt" then "Expected prompt request."
  else if (pyStrOrEmpty m.prompt).isEmpty then "prompt is required."
  else "session_id must be a string or null."

/-- The structured part of a `RequestError`: its `data` attribute is
either not a dict or a dict with optional `details` and `message`
entries. -/
inductive ErrData
  | noDict
  | dict (details : Option String) (message : Option String)
deriving DecidableEq, Repr

structure RequestError where
  msg : String
  data : ErrData
deriving DecidableEq, Repr

/-- Python `a or b` on optional strings (empty string is falsy). -/
def pyOrStr (a b : Option String) : Option String :=
  match a with
  | some s => if s.isEmpty then b else some s
  | none => b

/-- Model of `_is_session_not_found` (client.py lines 367-376, identical in
service.py lines 222-231): `"Session not found"` occurs in `str(exc)`, or
`data` is a dict whose `details or message` entry is a string containing
it. -/
def is_session_not_found (e : RequestError) : Bool :=
  if strHasSub e.msg "Session not found" then true
  else
    match e.data with
    | .noDict => false
    | .dict d m =>
      match pyOrStr d m with
      | some s => strHasSub s "Session not found"
      | none => false

inductive CallRes (α : Type)
  | ok (a : α)
  | raise (e : RequestError)
deriving DecidableEq, Repr

/-- Scripted agent-connection behavior, per call counter of each method. -/
structure AgentScript where
  newSessionRes : Nat → CallRes (Option String)
  setModeRes : Nat → CallRes Unit
  promptRes : Nat → CallRes (Option String)

/-- Agent-connection calls attempted, in order. -/
inductive AEv
  | evNewSession
  | evSetMode (modeId sessionId : String)
  | evPrompt (sessionId text : String)
deriving DecidableEq, Repr

/-- An exception escaping `_send_prompt`: a `RequestError` or the
`RuntimeError` from `_create_session`. -/
inductive PyErr
  | request (e : RequestError)
  | runtime (msg : String)
deriving DecidableEq, Repr

structure RunSt where
  nNew : Nat
  nSet : Nat
  nPrompt : Nat
  trace : List AEv
  errs : List String
deriving Repr

def RunSt.init : RunSt := ⟨0, 0, 0, [], []⟩

def RunSt.emit (st : RunSt) (m : String) : RunSt :=
  { st with errs := st.errs ++ [m] }

/-- Service `_create_session` (service.py lines 234-242): call
`new_session`; a `RequestError` propagates, a missing/empty session id
raises `RuntimeError`. The service-side variant does not touch any store. -/
def svc_create_session (sc : AgentScript) (st : RunSt) :
    Except PyErr String × RunSt :=
  let res := sc.newSessionRes st.nNew
  let st := { st with nNew := st.nNew + 1, trace := st.trace ++ [AEv.evNewSession] }
  match res with
  | .raise e => (.error (.request e), st)
  | .ok none => (.error (.runtime "ACP new_session did not return a session id."), st)
  | .ok (some sid) =>
    if sid.isEmpty then
      (.error (.runtime "ACP new_session did not return a session id."), st)
    else (.ok sid, st)

def callSetMode (sc : AgentScript) (modeId sid : String) (st : RunSt) :
    Except PyErr Unit × RunSt :=
  let res := sc.setModeRes st.nSet
  let st := { st with nSet := st.nSet + 1, trace := st.trace ++ [AEv.evSetMode modeId sid] }
  match res with
  | .raise e => (.error (.request e), st)
  | .ok _ => (.ok (), st)

def callPrompt (sc : AgentScript) (sid text : String) (st : RunSt) :
    Except PyErr (Option String) × RunSt :=
  let res := sc.promptRes st.nPrompt
  let st := { st with nPrompt := st.nPrompt + 1, trace := st.trace ++ [AEv.evPrompt sid text] }
  match res with
  | .raise e => (.error (.request e), st)
  | .ok r => (.ok r, st)

/-- The `try:` body of the service `_send_prompt` (service.py lines
253-273). Returns the result, the value of the local `session_id` variable
at exit (used by the handler's diagnostic), and the run state. If no
truthy session id was supplied one is created first; a configured mode is
applied; the prompt is issued; a `"refusal"` stop reason triggers one
in-body retry against a fresh session (whose own `RequestError`s are still
caught by the surrounding handler), and the retried prompt's stop reason
is not inspected. -/
def svc_try (sc : AgentScript) (sid0 : Option String) (text : String)
    (modeId : Option String) (st : RunSt) :
    Except PyErr String × Option String × RunSt :=
  let created : Except PyErr String × RunSt :=
    match sid0 with
    | some s => if s.isEmpty then svc_create_session sc st else (.ok s, st)
    | none => svc_create_session sc st
  match created with
  | (.error e, st) => (.error e, sid0, st)
  | (.ok sid, st) =>
    let modeStep : Except PyErr Unit × RunSt :=
      match modeId with
      | some m => if m.isEmpty then (.ok (), st) else callSetMode sc m sid st
      | none => (.ok (), st)
    match modeStep with
    | (.error e, st) => (.error e, some sid, st)
    | (.ok _, st) =>
      match callPrompt sc sid text st with
      | (.error e, st) => (.error e, some sid, st)
      | (.ok stopReason, st) =>
        if stopReason == some "refusal" then
          let st := st.emit ("ACP prompt refused for session " ++ sid)
          match svc_create_session sc st with
          | (.error e, st) => (.error e, some sid, st)
          | (.ok nsid, st) =>
            let modeStep2 : Except PyErr Unit × RunSt :=
              match modeId with
              | some m => if m.isEmpty then (.ok (), st) else callSetMode sc m nsid st
              | none => (.ok (), st)
            match modeStep2 with
            | (.error e, st) => (.error e, some sid, st)
            | (.ok _, st) =>
              match callPrompt sc nsid text st with
              | (.error e, st) => (.error e, some sid, st)
              | (.ok _, st) => (.ok nsid, some sid, st)
        else (.ok sid, some sid, st)

/-- Service `_send_prompt` (service.py lines 245-286): the `try:` body
above wrapped in `except RequestError`: report the failure, re-raise
unless `_is_session_not_found`, otherwise create a fresh session, reapply
the mode, retry the prompt exactly once and return the new session id;
exceptions raised inside the handler itself propagate. -/
def svc_send_prompt (sc : AgentScript) (sid0 : Option String) (text : String)
    (modeId : Option String) : Except PyErr String × RunSt :=
  match svc_try sc sid0 text modeId RunSt.init with
  | (.ok sid, _, st) => (.ok sid, st)
  | (.error (.runtime msg), _, st) => (.error (.runtime msg), st)
  | (.error (.request e), sidBind, st) =>
    let st := st.emit ("ACP request failed: " ++ e.msg)
    if !is_session_not_found e then (.error (.request e), st)
    else
      let st := st.emit ("ACP session not found: " ++ pyShowOptStr sidBind)
      match svc_create_session sc st with
      | (.error e2, st) => (.error e2, st)
      | (.ok nsid, st) =>
        let modeStep : Except PyErr Unit × RunSt :=
          match modeId with
          | some m => if m.isEmpty then (.ok (), st) else callSetMode sc m nsid st
          | none => (.ok (), st)
        match modeStep with
        | (.error e2, st) => (.error e2, st)
        | (.ok _, st) =>
          match callPrompt sc nsid text st with
          | (.error e2, st) => (.error e2, st)
          | (.ok _, st) => (.ok nsid, st)

/-- Run state of the direct (console) front end: agent-call counters and
trace as for the service, plus the session store and the count of upserts
performed (the `times` clock source assigns the n-th upsert its
timestamp). -/
structure CliSt where
  nNew : Nat
  nSet : Nat
  nPrompt : Nat
  nUp : Nat
  trace : List AEv
  errs : List String
  store : Store
deriving Repr

def CliSt.start (store : Store) : CliSt := ⟨0, 0, 0, 0, [], [], store⟩

def CliSt.emit (st : CliSt) (m : String) : CliSt :=
  { st with errs := st.errs ++ [m] }

/-- Client `_create_session` (client.py lines 379-390): as the service
variant, but on success the new session id is persisted in the store under
the chat id before returning. -/
def cli_create_session (sc : AgentScript) (times : Nat → Nat) (chatId : String)
    (st : CliSt) : Except PyErr String × CliSt :=
  let res := sc.newSessionRes st.nNew
  let st := { st with nNew := st.nNew + 1, trace := st.trace ++ [AEv.evNewSession] }
  match res with
  | .raise e => (.error (.request e), st)
  | .ok none => (.error (.runtime "ACP new_session did not return a session id."), st)
  | .ok (some sid) =>
    if sid.isEmpty then
      (.error (.runtime "ACP new_session did not return a session id."), st)
    else
      (.ok sid,
        { st with store := st.store.upsert chatId sid (times st.nUp),
                  nUp := st.nUp + 1 })

def cliSetMode (sc : AgentScript) (modeId sid : String) (st : CliSt) :
    Except PyErr Unit × CliSt :=
  let res := sc.setModeRes st.nSet
  let st := { st with nSet := st.nSet + 1, trace := st.trace ++ [AEv.evSetMode modeId sid] }
  match res with
  | .raise e => (.error (.request e), st)
  | .ok _ => (.ok (), st)

def cliPrompt (sc : AgentScript) (sid text : String) (st : CliSt) :
    Except PyErr (Option String) × CliSt :=
  let res := sc.promptRes st.nPrompt
  let st := { st with nPrompt := st.nPrompt + 1, trace := st.trace ++ [AEv.evPrompt sid text] }
  match res with
  | .raise e => (.error (.request e), st)
  | .ok r => (.ok r, st)

/-- The `try:` body of the client `_send_prompt` (client.py lines
403-421): apply the mode if given, prompt, and on a `"refusal"` stop
reason create a fresh session (persisting it), reapply the mode and retry
once, without inspecting the retried prompt's stop reason. -/
def cli_try (sc : AgentScript) (times : Nat → Nat) (chatId sid text : String)
    (modeId : Option String) (st : CliSt) : Except PyErr String × CliSt :=
  let modeStep : Except PyErr Unit × CliSt :=
    match modeId with
    | some m => if m.isEmpty then (.ok (), st) else cliSetMode sc m sid st
    | none => (.ok (), st)
  match modeStep with
  | (.error e, st) => (.error e, st)
  | (.ok _, st) =>
    match cliPrompt sc sid text st with
    | (.error e, st) => (.error e, st)
    | (.ok stopReason, st) =>
      if stopReason == some "refusal" then
        let st := st.emit ("ACP prompt refused for session " ++ sid)
        match cli_create_session sc times chatId st with
        | (.error e, st) => (.error e, st)
        | (.ok nsid, st) =>
          let modeStep2 : Except PyErr Unit × CliSt :=
            match modeId with
            | some m => if m.isEmpty then (.ok (), st) else cliSetMode sc m nsid st
            | none => (.ok (), st)
          match modeStep2 with
          | (.error e, st) => (.error e, st)
          | (.ok _, st) =>
            match cliPrompt sc nsid text st with
            | (.error e, st) => (.error e, st)
            | (.ok _, st) => (.ok nsid, st)
      else (.ok sid, st)

/-- Client `_send_prompt` (client.py lines 393-438): the `try:` body with
the `except RequestError` handler; on a "session not found" error a fresh
session is created (and persisted by `_create_session`), the mode is
reapplied and the prompt retried exactly once; any other `RequestError`
propagates after being reported. -/
def cli_send_prompt (sc : AgentScript) (times : Nat → Nat)
    (chatId sid text : String) (modeId : Option String) (store : Store) :
    Except PyErr String × CliSt :=
  match cli_try sc times chatId sid text modeId (CliSt.start store) with
  | (.ok rsid, st) => (.ok rsid, st)
  | (.error (.runtime msg), st) => (.error (.runtime msg), st)
  | (.error (.request e), st) =>
    let st := st.emit ("ACP request failed: " ++ e.msg)
    if !is_session_not_found e then (.error (.request e), st)
    else
      let st := st.emit ("ACP session not found: " ++ sid)
      match cli_create_session sc times chatId st with
      | (.error e2, st) => (.error e2, st)
      | (.ok nsid, st) =>
        let modeStep : Except PyErr Unit × CliSt :=
          match modeId with
          | some m => if m.isEmpty then (.ok (), st) else cliSetMode sc m nsid st
          | none => (.ok (), st)
        match modeStep with
        | (.error e2, st) => (.error e2, st)
        | (.ok _, st) =>
          match cliPrompt sc nsid text st with
          | (.error e2, st) => (.error e2, st)
          | (.ok _, st) => (.ok nsid, st)

/-- Session setup of the direct front end (client.py lines 593-596): reuse
the mapped session id when the store has one, otherwise create (and
persist) a fresh session. -/
def cli_setup_session (sc : AgentScript) (times : Nat → Nat) (chatId : String)
    (store : Store) : Except PyErr String × CliSt :=
  match store.get chatId with
  | some r => (.ok r.1, CliSt.start store)
  | none => cli_create_session sc times chatId (CliSt.start store)

/-- The socket front end's handling of a `done` message (client.py lines
529-533): persist the carried session id if it is a non-empty string. -/
def socket_done_handle (store : Store) (chatId : String)
    (sessionIdField : Option String) (now : Nat) : Store :=
  match sessionIdField with
  | some sid => if sid.isEmpty then store else store.upsert chatId sid now
  | none => store

/-- One proxied prompt cycle as seen by the store: the service drives
session recovery (which never touches the store — the service has no
store and no chat id), sends `done` with the resulting session id (also
after a failure, when a truthy session id exists), and the socket front
end persists the id from `done`. -/
def proxy_cycle (store : Store) (chatId : String) (sc : AgentScript)
    (sid0 : Option String) (text : String) (modeId : Option String)
    (now : Nat) : Store × Except PyErr String :=
  match svc_send_prompt sc sid0 text modeId with
  | (.ok sid, _) => (socket_done_handle store chatId (some sid) now, .ok sid)
  | (.error e, _) =>
    (match sid0 with
     | some s => if s.isEmpty then store else socket_done_handle store chatId (some s) now
     | none => store, .error e)

/-- Agent script in which every prompt call stops with reason `"refusal"`. -/
def cx1sc : AgentScript :=
  ⟨fun _ => CallRes.ok (some "s1"), fun _ => CallRes.ok (),
   fun _ => CallRes.ok (some "refusal")⟩

/-- Agent script: the first prompt refuses, later prompts stop normally. -/
def w1sc : AgentScript :=
  ⟨fun _ => CallRes.ok (some "s1"), fun _ => CallRes.ok (),
   fun n => if n = 0 then CallRes.ok (some "refusal")
            else CallRes.ok (some "end_turn")⟩

def w2e1 : RequestError := ⟨"Session not found: s0", ErrData.noDict⟩

def w2e2 : RequestError := ⟨"agent exploded", ErrData.noDict⟩

/-- Agent script: the first prompt raises a "session not found" error. -/
def w2sc1 : AgentScript :=
  ⟨fun _ => CallRes.ok (some "s1"), fun _ => CallRes.ok (),
   fun n => if n = 0 then CallRes.raise w2e1 else CallRes.ok (some "end_turn")⟩

/-- Agent script: every prompt raises an unrelated request error. -/
def w2sc2 : AgentScript :=
  ⟨fun _ => CallRes.ok (some "s1"), fun _ => CallRes.ok (),
   fun _ => CallRes.raise w2e2⟩

/-- Agent script: every prompt refuses once then stops normally; used to
drive a proxied recovery. -/
def cx4sc : AgentScript :=
  ⟨fun _ => CallRes.ok (some "s1"), fun _ => CallRes.ok (),
   fun n => if n = 0 then CallRes.ok (some "refusal")
            else CallRes.ok (some "end_turn")⟩

/-- Agent script: sessions are created as `"s1"` and prompts stop
normally on the first attempt. -/
def w4sc : AgentScript :=
  ⟨fun _ => CallRes.ok (some "s1"), fun _ => CallRes.ok (),
   fun _ => CallRes.ok (some "end_turn")⟩

/-- Agent script and message for the blank-session-id witness. -/
def w10sc : AgentScript :=
  ⟨fun _ => CallRes.ok (some "s1"), fun _ => CallRes.ok (),
   fun _ => CallRes.ok (some "end_turn")⟩

def w10msg : RawMsg :=
  ⟨FVal.fStr "prompt", FVal.fStr "  ", FVal.fStr "hello", FVal.fMissing,
   FVal.fBool true, FVal.fMissing, FVal.fMissing, FVal.fMissing, false⟩

/-! ## One in-flight prompt cycle (`handle_client`, service.py lines 337-416)

Cooperative-concurrency model of two connections racing on the service.
Scheduling is single-threaded: code between two `await` suspension points
runs atomically. The relevant atomic blocks of `handle_client` are:

* from entry: `if request_lock.locked():` send the busy error and close
  (the connection is rejected immediately — there is no waiting state, so
  a second connection is never queued); otherwise acquire the lock (the
  uncontended `asyncio.Lock.acquire` does not suspend between the check
  and the acquisition) and suspend reading the first message;
* on the message: validate, build the `ActiveRequest`, `client.attach` it,
  and suspend driving `_send_prompt` (the happy validated path);
* on prompt completion: send `done`, then the `finally:` block cancels the
  listener, detaches, releases the lock and closes.

A connection is `start` before its first step, `waitMsg` holding the lock
awaiting its message, `inPrompt` attached and driving the prompt, and
`finished rejected` when closed. The shared state is the lock bit and the
single `_active` slot of `AcpServiceClient` (which connection, if any, is
attached). A schedule is the list of which connection steps next. -/
inductive CSt
  | start
  | waitMsg
  | inPrompt
  | finished (rejected : Bool)
deriving DecidableEq, Repr

structure Conn where
  st : CSt
  sent : List SockMsg
deriving DecidableEq, Repr

structure GSt where
  lock : Bool
  attached : Option Bool
  c0 : Conn
  c1 : Conn
deriving DecidableEq, Repr

def busyErrText : String := "ACP service busy; try again later."

/-- One atomic block of `handle_client` for connection `i`, given the
shared lock and attach slot; returns the connection's new state and the
new shared state. `sid` is the session id recovery returns, carried by
the `done` message. -/
def connStep (sid : String) (lock : Bool) (attached : Option Bool) (i : Bool)
    (c : Conn) : Conn × Bool × Option Bool :=
  match c.st with
  | .start =>
    if lock then
      ({ c with st := CSt.finished true,
                sent := c.sent ++ [SockMsg.errorMsg busyErrText] }, lock, attached)
    else ({ c with st := CSt.waitMsg }, true, attached)
  | .waitMsg => ({ c with st := CSt.inPrompt }, lock, some i)
  | .inPrompt =>
    ({ c with st := CSt.finished false,
              sent := c.sent ++ [SockMsg.doneMsg sid] }, false, none)
  | .finished _ => (c, lock, attached)

def step (sid : String) (g : GSt) (i : Bool) : GSt :=
  if i then
    let r := connStep sid g.lock g.attached true g.c1
    { lock := r.2.1, attached := r.2.2, c0 := g.c0, c1 := r.1 }
  else
    let r := connStep sid g.lock g.attached false g.c0
    { lock := r.2.1, attached := r.2.2, c0 := r.1, c1 := g.c1 }

def runSched (sid : String) : GSt → List Bool → GSt
  | g, [] => g
  | g, i :: rest => runSched sid (step sid g i) rest

/-- Initial state: lock free, nothing attached, both connections accepted
but not yet scheduled. -/
def g0 : GSt := ⟨false, none, ⟨CSt.start, []⟩, ⟨CSt.start, []⟩⟩

/-- A connection mid-cycle (holding the lock). -/
def midC (c : Conn) : Bool := c.st == CSt.waitMsg || c.st == CSt.inPrompt

/-- The service invariant: at most one connection is mid-cycle, the lock
is held exactly when one is, and the `_active` slot only ever points at a
connection that is driving its prompt — hence at most one `ActiveRequest`
is attached at any point. -/
def SvcInv (g : GSt) : Bool :=
  (!(midC g.c0 && midC g.c1)) &&
  (g.lock == (midC g.c0 || midC g.c1)) &&
  (match g.attached with
   | none => true
   | some false => g.c0.st == CSt.inPrompt
   | some true => g.c1.st == CSt.inPrompt)

theorem get_upsert_self (rows : List (String × String × Nat)) (c v : String) (t : Nat) :
    (Store.mk (upsertRows rows c v t)).get c = some (v, t) := by
  induction rows with
  | nil => simp [Store.get, upsertRows]
  | cons r rs ih =>
    by_cases h : r.1 = c
    · simp [Store.get, upsertRows, h]
    · have hb : (r.1 == c) = false := by simp [h]
      simpa [Store.get, upsertRows, hb] using ih

theorem keys_upsertRows (rows : List (String × String × Nat)) (c v : String) (t : Nat) :
    (upsertRows rows c v t).map (fun r => r.1) =
      (if rows.any (fun r => r.1 == c) then rows.map (fun r => r.1)
       else rows.map (fun r => r.1) ++ [c]) := by
  induction rows with
  | nil => simp [upsertRows]
  | cons r rs ih =>
    by_cases h : r.1 = c
    · simp [upsertRows, h]
    · have hb : (r.1 == c) = false := by simp [h]
      rw [show upsertRows (r :: rs) c v t = r :: upsertRows rs c v t from by
        simp [upsertRows, hb]]
      simp only [List.map_cons, List.any_cons, hb, Bool.false_or]
      rw [ih]
      by_cases hany : rs.any (fun r => r.1 == c) <;> simp [hany, h]

theorem keysNodup_upsert (s : Store) (c v : String) (t : Nat)
    (h : s.keysNodup) : (s.upsert c v t).keysNodup := by
  unfold Store.keysNodup Store.upsert at *
  rw [keys_upsertRows]
  by_cases hany : s.rows.any (fun r => r.1 == c)
  · simpa [hany] using h
  · simp only [hany, if_false]
    have hnotin : c ∉ s.rows.map (fun r => r.1) := by
      intro hmem
      rcases List.mem_map.mp hmem with ⟨r, hr, hrc⟩
      have : s.rows.any (fun r => r.1 == c) = true :=
        List.any_eq_true.mpr ⟨r, hr, by simp [hrc]⟩
      simp [this] at hany
    refine List.Nodup.append h (List.nodup_singleton c) ?_
    intro a ha hac
    rw [List.mem_singleton] at hac
    subst hac
    exact hnotin ha

theorem service_stream_started (strip : Bool) (cs : List String)
    (h : ∀ x ∈ cs, x ≠ "") : service_deliver_stream strip true cs = cs := by
  induction cs with
  | nil => rfl
  | cons c cs ih =>
    have hc : c.isEmpty = false := by
      have := h c (List.mem_cons_self c cs)
      cases hce : c.isEmpty
      · rfl
      · exact absurd ((String.isEmpty_iff _).mp hce) this
    simp only [service_deliver_stream, service_deliver_chunk, hc]
    simp [ih (fun x hx => h x (List.mem_cons_of_mem c hx))]

theorem console_stream_started (strip : Bool) (cs : List String)
    (h : ∀ x ∈ cs, x ≠ "") : console_deliver_stream strip true cs = cs := by
  induction cs with
  | nil => rfl
  | cons c cs ih =>
    have hc : c.isEmpty = false := by
      have := h c (List.mem_cons_self c cs)
      cases hce : c.isEmpty
      · rfl
      · exact absurd ((String.isEmpty_iff _).mp hce) this
    simp only [console_deliver_stream, console_deliver_chunk, hc]
    simp [ih (fun x hx => h x (List.mem_cons_of_mem c hx))]

/-- C7: for every chat id and pair of session ids, upserting the first and
then, at a clock reading at least as late, the second, followed by `get`,
returns the second session id with the second (later) timestamp; this holds
even when the two session ids coincide (`b = a` is allowed), and the
primary-key invariant (at most one mapping per chat id) is preserved. -/
theorem C7_upsert_twice_get (s : Store) (chat a b : String) (t1 t2 : Nat)
    (hmono : t1 ≤ t2) :
    ((s.upsert chat a t1).upsert chat b t2).get chat = some (b, t2)
    ∧ t1 ≤ t2
    ∧ (s.keysNodup → ((s.upsert chat a t1).upsert chat b t2).keysNodup) := by
  refine ⟨get_upsert_self _ _ _ _, hmono, fun h => ?_⟩
  exact keysNodup_upsert _ _ _ _ (keysNodup_upsert _ _ _ _ h)

theorem C7_upsert_twice_get_witness :
    ((Store.empty.upsert "chat" "s1" 3).upsert "chat" "s1" 5).get "chat" = some ("s1", 5)
    ∧ (3 : Nat) ≤ 5
    ∧ ((Store.empty.upsert "chat" "s1" 3).upsert "chat" "s1" 5).keysNodup :=
  ⟨(C7_upsert_twice_get Store.empty "chat" "s1" "s1" 3 5 (by decide)).1,
   (C7_upsert_twice_get Store.empty "chat" "s1" "s1" 3 5 (by decide)).2.1,
   (C7_upsert_twice_get Store.empty "chat" "s1" "s1" 3 5 (by decide)).2.2 (by decide)⟩

/-- C8: with `strip_leading_newlines` configured, leading newlines are
removed from the first delivered chunk only (a first chunk whose text
strips to nonempty), and every subsequent nonempty chunk is delivered
unmodified; without the option every nonempty chunk is delivered
unmodified. Both the service-side and the console-side chunk handlers
behave this way. -/
theorem C8_strip_first_chunk_only :
    (∀ (c : String) (cs : List String), lstripNewlines c ≠ "" → (∀ x ∈ cs, x ≠ "") →
      service_deliver_stream true false (c :: cs) = lstripNewlines c :: cs
      ∧ console_deliver_stream true false (c :: cs) = lstripNewlines c :: cs)
    ∧ (∀ cs : List String, (∀ x ∈ cs, x ≠ "") →
      service_deliver_stream false false cs = cs
      ∧ console_deliver_stream false false cs = cs) := by
  constructor
  · intro c cs hstrip hcs
    have hc : c.isEmpty = false := by
      cases hce : c.isEmpty
      · rfl
      · exfalso
        apply hstrip
        rw [(String.isEmpty_iff _).mp hce]
        rfl
    have ht : (lstripNewlines c).isEmpty = false := by
      cases hte : (lstripNewlines c).isEmpty
      · rfl
      · exact absurd ((String.isEmpty_iff _).mp hte) hstrip
    constructor
    · simp only [service_deliver_stream, service_deliver_chunk, hc, ht]
      simp [service_stream_started true cs hcs]
    · simp only [console_deliver_stream, console_deliver_chunk, hc, ht]
      simp [console_stream_started true cs hcs]
  · intro cs hcs
    cases cs with
    | nil => exact ⟨rfl, rfl⟩
    | cons c cs =>
      have hc : c.isEmpty = false := by
        have := hcs c (List.mem_cons_self c cs)
        cases hce : c.isEmpty
        · rfl
        · exact absurd ((String.isEmpty_iff _).mp hce) this
      constructor
      · simp only [service_deliver_stream, service_deliver_chunk, hc]
        simp [service_stream_started false cs
          (fun x hx => hcs x (List.mem_cons_of_mem c hx))]
      · simp only [console_deliver_stream, console_deliver_chunk, hc]
        simp [console_stream_started false cs
          (fun x hx => hcs x (List.mem_cons_of_mem c hx))]

theorem C8_strip_first_chunk_only_witness :
    service_deliver_stream true false ["\n\nHi", "\nmore"] = ["Hi", "\nmore"]
    ∧ service_deliver_stream false false ["\n\nHi", "\nmore"] = ["\n\nHi", "\nmore"] := by
  have h1 := C8_strip_first_chunk_only.1 "\n\nHi" ["\nmore"]
    (by decide) (by intro x hx; fin_cases hx; decide)
  have h2 := C8_strip_first_chunk_only.2 ["\n\nHi", "\nmore"]
    (by intro x hx; fin_cases hx <;> decide)
  exact ⟨by rw [h1.1 ]; decide, h2.1⟩

/-- C5 counterexample: with options `[{"allow_once","Allow once"}]` (no
`"reject_once"` offered), no auto-approval and no TTY, the console client
still resolves to an allowed outcome with option id `"reject_once"`
(client.py lines 182-186 select it unconditionally), whereas the claim
requires a denial with no selected option when `"reject_once"` is absent. -/
theorem C5_cx :
    (console_request_permission false false false ⟨false, false⟩ "tool execution"
        [⟨"allow_once", "Allow once"⟩] []).1 = PermResult.selected "reject_once" := by
  rfl

/-- C5 (amended): without auto-approval and without an interactive terminal,
the socket front end selects `"reject_once"` when such an option is offered
and answers with no selected option otherwise, while the direct console
client always answers with option id `"reject_once"` without consulting the
offered list; neither reads any input (the unread input is returned
unchanged), so neither blocks. -/
theorem C5_no_tty_resolution :
    (∀ (options : List POpt) (input : List String),
      socket_permission_answer false false false options input =
        ((if options.any (fun o => o.option_id == "reject_once")
          then some "reject_once" else none), input))
    ∧ (∀ (st : ConsoleSt) (title : String) (options : List POpt)
        (input : List String),
      (console_request_permission false false false st title options input).1 =
          PermResult.selected "reject_once"
      ∧ (console_request_permission false false false st title options input).2.2.2 =
          input) := by
  constructor
  · intro options input
    by_cases h : options.any (fun o => o.option_id == "reject_once") <;>
      simp [socket_permission_answer, h]
  · intro st title options input
    exact ⟨rfl, rfl⟩

/-- C6 counterexample: under auto-approval (`auto_approve = allow_always =
true`), when streamed output has left a line without a trailing newline
(`_needs_newline = true`), the console client's permission handler writes a
newline to the output stream before resolving — so output to the human does
occur, contrary to the claim's "performing no input or output". -/
theorem C6_cx :
    (console_request_permission true true true ⟨true, false⟩ "tool execution"
        [] []).2.2.1.outWrites = ["\n"] := by
  rfl

/-- C6 (amended): under configured auto-approval the resolution selects
option id `"allow_always"` when persistent approval is configured and
`"allow_once"` otherwise, returning an allowed outcome with that id; it
reads no input and writes nothing related to the permission. The service
side sends no socket messages at all; the console client writes nothing
beyond flushing a pending newline or chunk delimiter left over from
streamed output; the socket front end answers immediately with the chosen
option id, reading nothing. -/
theorem C6_auto_approve_resolution :
    (∀ (cfg : ARCfg) (title : String) (options : List POpt)
        (answer : Option String), cfg.auto_approve = true →
      service_request_permission (some cfg) title options answer =
        (PermResult.selected
          (if cfg.allow_always then "allow_always" else "allow_once"), []))
    ∧ (∀ (aa tty : Bool) (st : ConsoleSt) (title : String) (options : List POpt)
        (input : List String),
      console_request_permission true aa tty st title options input =
        (PermResult.selected (if aa then "allow_always" else "allow_once"),
          ⟨false, false⟩,
          ⟨(if st.needs_newline then ["\n"] else []),
           (if st.chunk_delim_active then ["\n"] else [])⟩,
          input))
    ∧ (∀ (auto aa tty : Bool) (options : List POpt) (input : List String),
      (auto || aa) = true →
      socket_permission_answer auto aa tty options input =
        (some (if aa then "allow_always" else "allow_once"), input)) := by
  refine ⟨?_, ?_, ?_⟩
  · intro cfg title options answer hauto
    simp [service_request_permission, hauto]
  · intro aa tty st title options input
    rfl
  · intro auto aa tty options input hauto
    simp [socket_permission_answer, hauto]

theorem C6_auto_approve_resolution_witness :
    service_request_permission (some ⟨true, true⟩) "t" [] none =
        (PermResult.selected "allow_always", [])
    ∧ console_request_permission true true false ⟨false, false⟩ "t" [] [] =
        (PermResult.selected "allow_always", ⟨false, false⟩, ⟨[], []⟩, [])
    ∧ socket_permission_answer true true false [] [] =
        (some "allow_always", []) := by
  refine ⟨?_, ?_, ?_⟩
  · exact C6_auto_approve_resolution.1 ⟨true, true⟩ "t" [] none rfl
  · exact C6_auto_approve_resolution.2.1 true false ⟨false, false⟩ "t" [] []
  · exact C6_auto_approve_resolution.2.2 true true false [] [] rfl

/-- C9 counterexample: a first message that is malformed (unparseable JSON,
so `_read_message` returns `None`) is answered with no message at all — the
connection is closed silently (service.py lines 350-352) — whereas the
claim requires one message of type error for every malformed first
message. -/
theorem C9_cx :
    handle_validate none = HCOutcome.silentClose
    ∧ prelude_messages (handle_validate none) = [] := ⟨rfl, rfl⟩

/-- C9 (amended): a wrong-typed first message (a non-empty object whose
type is not `prompt`, whose prompt text is missing or empty, or whose
`session_id` is neither a string nor null) receives exactly one message of
type error and the connection is closed; a malformed first message
(unparseable JSON, EOF, or the empty object) is closed without any message
at all. In neither case is a prompt cycle driven. -/
theorem C9_reject_malformed (m m2 : RawMsg)
    (hne : m.isEmptyObj = false)
    (hbad : m.type ≠ FVal.fStr "prompt" ∨ pyStrOrEmpty m.prompt = ""
      ∨ (∃ n, m.session_id = FVal.fNum n) ∨ (∃ b, m.session_id = FVal.fBool b))
    (h2 : m2.isEmptyObj = true) :
    handle_validate (some m) = HCOutcome.errorClose (validationErrText m)
    ∧ prelude_messages (handle_validate (some m)) =
        [SockMsg.errorMsg (validationErrText m)]
    ∧ drives_cycle (handle_validate (some m)) = false
    ∧ handle_validate (some m2) = HCOutcome.silentClose
    ∧ handle_validate none = HCOutcome.silentClose
    ∧ prelude_messages (handle_validate none) = []
    ∧ drives_cycle (handle_validate none) = false := by
  have hmain : handle_validate (some m) = HCOutcome.errorClose (validationErrText m) := by
    by_cases ht : m.type = FVal.fStr "prompt"
    · by_cases hp : pyStrOrEmpty m.prompt = ""
      · have hpe : (pyStrOrEmpty m.prompt).isEmpty = true :=
          (String.isEmpty_iff _).mpr hp
        simp [handle_validate, validationErrText, hne, ht, hpe]
      · have hsid : (∃ n, m.session_id = FVal.fNum n) ∨
            (∃ b, m.session_id = FVal.fBool b) := by
          rcases hbad with h | h | h | h
          · exact absurd ht h
          · exact absurd h hp
          · exact Or.inl h
          · exact Or.inr h
        have hpe : (pyStrOrEmpty m.prompt).isEmpty = false := by
          cases hq : (pyStrOrEmpty m.prompt).isEmpty
          · rfl
          · exact absurd ((String.isEmpty_iff _).mp hq) hp
        rcases hsid with ⟨n, hn⟩ | ⟨b, hb⟩
        · simp [handle_validate, validationErrText, hne, ht, hpe, hn]
        · simp [handle_validate, validationErrText, hne, ht, hpe, hb]
    · have htb : (m.type != FVal.fStr "prompt") = true := by
        simp [bne_iff_ne, ht]
      simp [handle_validate, validationErrText, hne, htb]
  refine ⟨hmain, ?_, ?_, ?_, rfl, rfl, rfl⟩
  · rw [hmain]; rfl
  · rw [hmain]; rfl
  · simp [handle_validate, h2]

theorem C9_reject_malformed_witness :
    handle_validate (some (RawMsg.mk (FVal.fStr "prompt") (FVal.fNum 3)
        (FVal.fStr "hello") FVal.fMissing FVal.fMissing FVal.fMissing
        FVal.fMissing FVal.fMissing false)) =
      HCOutcome.errorClose (validationErrText (RawMsg.mk (FVal.fStr "prompt")
        (FVal.fNum 3) (FVal.fStr "hello") FVal.fMissing FVal.fMissing
        FVal.fMissing FVal.fMissing FVal.fMissing false))
    ∧ prelude_messages (handle_validate (some (RawMsg.mk (FVal.fStr "prompt")
        (FVal.fNum 3) (FVal.fStr "hello") FVal.fMissing FVal.fMissing
        FVal.fMissing FVal.fMissing FVal.fMissing false))) =
        [SockMsg.errorMsg (validationErrText (RawMsg.mk (FVal.fStr "prompt")
          (FVal.fNum 3) (FVal.fStr "hello") FVal.fMissing FVal.fMissing
          FVal.fMissing FVal.fMissing FVal.fMissing false))]
    ∧ drives_cycle (handle_validate (some (RawMsg.mk (FVal.fStr "prompt")
        (FVal.fNum 3) (FVal.fStr "hello") FVal.fMissing FVal.fMissing
        FVal.fMissing FVal.fMissing FVal.fMissing false))) = false
    ∧ handle_validate (some (RawMsg.mk FVal.fMissing FVal.fMissing
        FVal.fMissing FVal.fMissing FVal.fMissing FVal.fMissing FVal.fMissing
        FVal.fMissing false)) = HCOutcome.silentClose
    ∧ handle_validate none = HCOutcome.silentClose
    ∧ prelude_messages (handle_validate none) = []
    ∧ drives_cycle (handle_validate none) = false :=
  C9_reject_malformed _ _ (by decide)
    (Or.inr (Or.inr (Or.inl ⟨3, rfl⟩))) (by decide)

theorem isEmpty_false_of_ne (s : String) (h : s ≠ "") : s.isEmpty = false := by
  cases hq : s.isEmpty
  · rfl
  · exact absurd ((String.isEmpty_iff _).mp hq) h

/-- C1 (amended): when the first prompt of a send operation stops with
reason `"refusal"`, both the service-side and the client-side
`_send_prompt` report the refusal, create exactly one fresh session
(persisting it in the client variant), reapply the mode when one was
given, retry the prompt exactly once against the fresh session, and
return the new session id. The retried prompt's stop reason is not
inspected: a second refusal (`r2 = some "refusal"` is allowed here) is
not retried again, but it is not surfaced as an error either — the call
still returns the new session id normally, with only the first refusal
reported. -/
theorem C1_refusal_retry (sc : AgentScript) (s text ns m chatId : String)
    (r2 : Option String) (times : Nat → Nat) (store : Store)
    (hs : s ≠ "") (hm : m ≠ "")
    (hp0 : sc.promptRes 0 = CallRes.ok (some "refusal"))
    (hp1 : sc.promptRes 1 = CallRes.ok r2)
    (hn0 : sc.newSessionRes 0 = CallRes.ok (some ns)) (hns : ns ≠ "")
    (hset : ∀ i, sc.setModeRes i = CallRes.ok ()) :
    svc_send_prompt sc (some s) text none =
      (.ok ns, ⟨1, 0, 2,
        [AEv.evPrompt s text, AEv.evNewSession, AEv.evPrompt ns text],
        ["ACP prompt refused for session " ++ s]⟩)
    ∧ svc_send_prompt sc (some s) text (some m) =
      (.ok ns, ⟨1, 2, 2,
        [AEv.evSetMode m s, AEv.evPrompt s text, AEv.evNewSession,
         AEv.evSetMode m ns, AEv.evPrompt ns text],
        ["ACP prompt refused for session " ++ s]⟩)
    ∧ (cli_send_prompt sc times chatId s text none store).1 = .ok ns
    ∧ (cli_send_prompt sc times chatId s text none store).2.trace =
        [AEv.evPrompt s text, AEv.evNewSession, AEv.evPrompt ns text]
    ∧ (cli_send_prompt sc times chatId s text none store).2.errs =
        ["ACP prompt refused for session " ++ s]
    ∧ (cli_send_prompt sc times chatId s text none store).2.store =
        store.upsert chatId ns (times 0)
    ∧ (cli_send_prompt sc times chatId s text (some m) store).1 = .ok ns
    ∧ (cli_send_prompt sc times chatId s text (some m) store).2.trace =
        [AEv.evSetMode m s, AEv.evPrompt s text, AEv.evNewSession,
         AEv.evSetMode m ns, AEv.evPrompt ns text] := by
  have hs' := isEmpty_false_of_ne s hs
  have hm' := isEmpty_false_of_ne m hm
  have hns' := isEmpty_false_of_ne ns hns
  refine ⟨?_, ?_, ?_, ?_, ?_, ?_, ?_, ?_⟩ <;>
    simp [svc_send_prompt, svc_try, svc_create_session, callSetMode, callPrompt,
      cli_send_prompt, cli_try, cli_create_session, cliSetMode, cliPrompt,
      CliSt.start, CliSt.emit, RunSt.init, RunSt.emit,
      hs', hm', hns', hp0, hp1, hn0, hset]

/-- C1 counterexample: with a session `"s0"` supplied and an agent whose
every prompt stops with reason `"refusal"`, the retried prompt also
refuses, yet `_send_prompt` returns the new session id as a normal result
with only the first refusal reported as a diagnostic — the second refusal
is not surfaced to the caller as an error, contrary to the claim's final
clause. (The trace confirms there is no further retry.) -/
theorem C1_cx :
    (svc_send_prompt cx1sc (some "s0") "hi" none).1 = Except.ok "s1"
    ∧ (svc_send_prompt cx1sc (some "s0") "hi" none).2.errs =
        ["ACP prompt refused for session s0"]
    ∧ (svc_send_prompt cx1sc (some "s0") "hi" none).2.trace =
        [AEv.evPrompt "s0" "hi", AEv.evNewSession, AEv.evPrompt "s1" "hi"] :=
  ⟨rfl, rfl, rfl⟩

theorem C1_refusal_retry_witness :
    svc_send_prompt w1sc (some "s0") "hi" none =
      (.ok "s1", ⟨1, 0, 2,
        [AEv.evPrompt "s0" "hi", AEv.evNewSession, AEv.evPrompt "s1" "hi"],
        ["ACP prompt refused for session s0"]⟩)
    ∧ (cli_send_prompt w1sc (fun _ => 7) "chat" "s0" "hi" none Store.empty).2.store =
        Store.empty.upsert "chat" "s1" 7 :=
  ⟨(C1_refusal_retry w1sc "s0" "hi" "s1" "beast" "chat" (some "end_turn")
      (fun _ => 7) Store.empty (by decide) (by decide) rfl rfl rfl (by decide)
      (fun _ => rfl)).1,
   (C1_refusal_retry w1sc "s0" "hi" "s1" "beast" "chat" (some "end_turn")
      (fun _ => 7) Store.empty (by decide) (by decide) rfl rfl rfl (by decide)
      (fun _ => rfl)).2.2.2.2.2.1⟩

/-- C2: when the first prompt call raises a `RequestError`: if
`_is_session_not_found` recognizes it, both the service-side and the
client-side `_send_prompt` report it, create one fresh session (persisted
in the client variant), reapply the mode when one was given, retry the
prompt exactly once, and return the new session id; a request error of
any other kind is reported and propagates to the caller with no session
created, no retry, and (in the client variant) no store change. -/
theorem C2_request_error_paths (sc1 sc2 : AgentScript) (s text ns m chatId : String)
    (e1 e2 : RequestError) (r2 : Option String) (times : Nat → Nat) (store : Store)
    (hs : s ≠ "") (hm : m ≠ "")
    (h1p0 : sc1.promptRes 0 = CallRes.raise e1)
    (h1snf : is_session_not_found e1 = true)
    (h1n0 : sc1.newSessionRes 0 = CallRes.ok (some ns)) (hns : ns ≠ "")
    (h1p1 : sc1.promptRes 1 = CallRes.ok r2)
    (h1set : ∀ i, sc1.setModeRes i = CallRes.ok ())
    (h2p0 : sc2.promptRes 0 = CallRes.raise e2)
    (h2snf : is_session_not_found e2 = false) :
    svc_send_prompt sc1 (some s) text none =
      (.ok ns, ⟨1, 0, 2,
        [AEv.evPrompt s text, AEv.evNewSession, AEv.evPrompt ns text],
        ["ACP request failed: " ++ e1.msg, "ACP session not found: " ++ s]⟩)
    ∧ svc_send_prompt sc1 (some s) text (some m) =
      (.ok ns, ⟨1, 2, 2,
        [AEv.evSetMode m s, AEv.evPrompt s text, AEv.evNewSession,
         AEv.evSetMode m ns, AEv.evPrompt ns text],
        ["ACP request failed: " ++ e1.msg, "ACP session not found: " ++ s]⟩)
    ∧ (cli_send_prompt sc1 times chatId s text none store).1 = .ok ns
    ∧ (cli_send_prompt sc1 times chatId s text none store).2.trace =
        [AEv.evPrompt s text, AEv.evNewSession, AEv.evPrompt ns text]
    ∧ (cli_send_prompt sc1 times chatId s text none store).2.errs =
        ["ACP request failed: " ++ e1.msg, "ACP session not found: " ++ s]
    ∧ (cli_send_prompt sc1 times chatId s text none store).2.store =
        store.upsert chatId ns (times 0)
    ∧ svc_send_prompt sc2 (some s) text none =
      (.error (.request e2), ⟨0, 0, 1, [AEv.evPrompt s text],
        ["ACP request failed: " ++ e2.msg]⟩)
    ∧ (cli_send_prompt sc2 times chatId s text none store).1 =
        Except.error (PyErr.request e2)
    ∧ (cli_send_prompt sc2 times chatId s text none store).2.trace =
        [AEv.evPrompt s text]
    ∧ (cli_send_prompt sc2 times chatId s text none store).2.errs =
        ["ACP request failed: " ++ e2.msg]
    ∧ (cli_send_prompt sc2 times chatId s text none store).2.store = store := by
  have hs' := isEmpty_false_of_ne s hs
  have hm' := isEmpty_false_of_ne m hm
  have hns' := isEmpty_false_of_ne ns hns
  refine ⟨?_, ?_, ?_, ?_, ?_, ?_, ?_, ?_, ?_, ?_, ?_⟩ <;>
    simp [svc_send_prompt, svc_try, svc_create_session, callSetMode, callPrompt,
      cli_send_prompt, cli_try, cli_create_session, cliSetMode, cliPrompt,
      CliSt.start, CliSt.emit, RunSt.init, RunSt.emit, pyShowOptStr,
      hs', hm', hns', h1p0, h1snf, h1n0, h1p1, h1set, h2p0, h2snf]

theorem C2_request_error_paths_witness :
    svc_send_prompt w2sc1 (some "s0") "hi" none =
      (.ok "s1", ⟨1, 0, 2,
        [AEv.evPrompt "s0" "hi", AEv.evNewSession, AEv.evPrompt "s1" "hi"],
        ["ACP request failed: Session not found: s0",
         "ACP session not found: s0"]⟩)
    ∧ svc_send_prompt w2sc2 (some "s0") "hi" none =
      (.error (.request w2e2), ⟨0, 0, 1, [AEv.evPrompt "s0" "hi"],
        ["ACP request failed: agent exploded"]⟩) :=
  ⟨(C2_request_error_paths w2sc1 w2sc2 "s0" "hi" "s1" "beast" "chat" w2e1 w2e2
      (some "end_turn") (fun _ => 7) Store.empty (by decide) (by decide) rfl
      (by decide) rfl (by decide) rfl (fun _ => rfl) rfl (by decide)).1,
   (C2_request_error_paths w2sc1 w2sc2 "s0" "hi" "s1" "beast" "chat" w2e1 w2e2
      (some "end_turn") (fun _ => 7) Store.empty (by decide) (by decide) rfl
      (by decide) rfl (by decide) rfl (fun _ => rfl) rfl (by decide)).2.2.2.2.2.2.1⟩

/-- C4 (amended): in the direct front end, every recovery path persists the
resulting session id under the original chat id before `_send_prompt`
(resp. the initial session setup) returns: the refusal path, the
"session not found" path, and the no-mapped-session path all leave the
store mapping the chat id to the fresh session id. In the Proxy-Service
path the service-side recovery itself performs no persistence (the
service holds no store and no chat id); the service returns the new
session id in the `done` message and the socket front end persists it on
receipt, after the recovery call has returned — so a subsequent call with
the same chat id still reuses the new session id. -/
theorem C4_persist_paths (sc1 sc2 sc3 : AgentScript) (chatId s text ns : String)
    (e : RequestError) (r2 r3 : Option String) (times : Nat → Nat)
    (store store0 : Store) (now : Nat)
    (hs : s ≠ "")
    (h1p0 : sc1.promptRes 0 = CallRes.ok (some "refusal"))
    (h1p1 : sc1.promptRes 1 = CallRes.ok r2)
    (h1n0 : sc1.newSessionRes 0 = CallRes.ok (some ns)) (hns : ns ≠ "")
    (h2p0 : sc2.promptRes 0 = CallRes.raise e)
    (hsnf : is_session_not_found e = true)
    (h2n0 : sc2.newSessionRes 0 = CallRes.ok (some ns))
    (h2p1 : sc2.promptRes 1 = CallRes.ok r2)
    (h3n0 : sc3.newSessionRes 0 = CallRes.ok (some ns))
    (h3p0 : sc3.promptRes 0 = CallRes.ok r3) (hr3 : r3 ≠ some "refusal")
    (hget : store0.get chatId = none) :
    (cli_send_prompt sc1 times chatId s text none store).2.store.get chatId =
        some (ns, times 0)
    ∧ (cli_send_prompt sc1 times chatId s text none store).1 = .ok ns
    ∧ (cli_send_prompt sc2 times chatId s text none store).2.store.get chatId =
        some (ns, times 0)
    ∧ (cli_send_prompt sc2 times chatId s text none store).1 = .ok ns
    ∧ (cli_setup_session sc3 times chatId store0).2.store.get chatId =
        some (ns, times 0)
    ∧ (cli_setup_session sc3 times chatId store0).1 = .ok ns
    ∧ proxy_cycle store0 chatId sc3 none text none now =
        (store0.upsert chatId ns now, .ok ns) := by
  have hs' := isEmpty_false_of_ne s hs
  have hns' := isEmpty_false_of_ne ns hns
  have hr3' : (r3 == some "refusal") = false := by
    simp [hr3]
  refine ⟨?_, ?_, ?_, ?_, ?_, ?_, ?_⟩ <;>
    simp [svc_send_prompt, svc_try, svc_create_session, callSetMode, callPrompt,
      cli_send_prompt, cli_try, cli_create_session, cliSetMode, cliPrompt,
      cli_setup_session, proxy_cycle, socket_done_handle,
      CliSt.start, CliSt.emit, RunSt.init, RunSt.emit,
      hs', hns', h1p0, h1p1, h1n0, h2p0, hsnf, h2n0, h2p1, h3n0, h3p0, hr3',
      hget, get_upsert_self _ chatId ns (times 0), Store.upsert]

/-- C4 counterexample (Proxy-Service path): the service-side recovery
returns the fresh session id `"s1"` (first conjunct) while the mapping
store — which lives in the socket client's process; the service touches no
store at all — still carries the old mapping at that moment (second
conjunct). The new id is persisted only afterwards, when the socket client
handles the `done` message (third conjunct). So the session id is not
"persisted in the mapping store before the recovery call returns" in the
Proxy-Service path. -/
theorem C4_cx :
    (svc_send_prompt cx4sc (some "old") "hi" none).1 = Except.ok "s1"
    ∧ (Store.empty.upsert "chat" "old" 0).get "chat" = some ("old", 0)
    ∧ (proxy_cycle (Store.empty.upsert "chat" "old" 0) "chat" cx4sc
        (some "old") "hi" none 7).1.get "chat" = some ("s1", 7) :=
  ⟨rfl, rfl, rfl⟩

theorem C4_persist_paths_witness :
    (cli_send_prompt cx4sc (fun _ => 7) "chat" "s0" "hi" none Store.empty).2.store.get
        "chat" = some ("s1", 7)
    ∧ (cli_setup_session w4sc (fun _ => 7) "chat" Store.empty).2.store.get "chat" =
        some ("s1", 7)
    ∧ proxy_cycle Store.empty "chat" w4sc none "hi" none 9 =
        (Store.empty.upsert "chat" "s1" 9, .ok "s1") :=
  ⟨(C4_persist_paths cx4sc w2sc1 w4sc "chat" "s0" "hi" "s1" w2e1
      (some "end_turn") (some "end_turn") (fun _ => 7) Store.empty Store.empty 9
      (by decide) rfl rfl rfl (by decide) rfl (by decide) rfl rfl rfl rfl
      (by decide) rfl).1,
   (C4_persist_paths cx4sc w2sc1 w4sc "chat" "s0" "hi" "s1" w2e1
      (some "end_turn") (some "end_turn") (fun _ => 7) Store.empty Store.empty 9
      (by decide) rfl rfl rfl (by decide) rfl (by decide) rfl rfl rfl rfl
      (by decide) rfl).2.2.2.2.1,
   (C4_persist_paths cx4sc w2sc1 w4sc "chat" "s0" "hi" "s1" w2e1
      (some "end_turn") (some "end_turn") (fun _ => 7) Store.empty Store.empty 9
      (by decide) rfl rfl rfl (by decide) rfl (by decide) rfl rfl rfl rfl
      (by decide) rfl).2.2.2.2.2.2⟩

/-- C10: a `prompt` message whose `session_id` field is a string of only
whitespace (including the empty string) is validated exactly as if the
field had been null: `handle_client` normalizes it to no session id, and
the subsequent `_send_prompt` call then creates a fresh session via
`new_session` and prompts against it. -/
theorem C10_blank_session_id (msg : RawMsg) (ws ns : String) (sc : AgentScript)
    (r : Option String)
    (hty : msg.type = FVal.fStr "prompt")
    (hsid : msg.session_id = FVal.fStr ws)
    (hws : allWhitespace ws = true)
    (hp : pyStrOrEmpty msg.prompt ≠ "")
    (hn0 : sc.newSessionRes 0 = CallRes.ok (some ns)) (hns : ns ≠ "")
    (hp0 : sc.promptRes 0 = CallRes.ok r) (hr : r ≠ some "refusal") :
    handle_validate (some msg) =
      handle_validate (some { msg with session_id := FVal.fNull })
    ∧ handle_validate (some msg) =
      HCOutcome.proceed none (pyStrOrEmpty msg.prompt) (modeOf msg.mode_id)
        (pyTruthy msg.auto_approve) (pyTruthy msg.allow_always)
        (pyTruthy msg.show_tools) (pyTruthy msg.strip_leading_newlines)
    ∧ svc_send_prompt sc none (pyStrOrEmpty msg.prompt) none =
      (.ok ns, ⟨1, 0, 1,
        [AEv.evNewSession, AEv.evPrompt ns (pyStrOrEmpty msg.prompt)], []⟩) := by
  have hns' := isEmpty_false_of_ne ns hns
  have hp' := isEmpty_false_of_ne _ hp
  have hr' : (r == some "refusal") = false := by simp [hr]
  have hobj : msg.isEmptyObj = false := by
    simp [RawMsg.isEmptyObj, hty]
  have hobj2 : (RawMsg.isEmptyObj
      { msg with type := FVal.fStr "prompt", session_id := FVal.fNull }) = false := by
    simp [RawMsg.isEmptyObj]
  refine ⟨?_, ?_, ?_⟩
  · simp [handle_validate, hobj, hobj2, hty, hp', hsid, hws]
  · simp [handle_validate, hobj, hty, hp', hsid, hws]
  · simp [svc_send_prompt, svc_try, svc_create_session, callPrompt,
      RunSt.init, RunSt.emit, hn0, hns', hp0, hr']

theorem C10_blank_session_id_witness :
    handle_validate (some w10msg) =
      handle_validate (some { w10msg with session_id := FVal.fNull })
    ∧ handle_validate (some w10msg) =
      HCOutcome.proceed none (pyStrOrEmpty w10msg.prompt) (modeOf w10msg.mode_id)
        (pyTruthy w10msg.auto_approve) (pyTruthy w10msg.allow_always)
        (pyTruthy w10msg.show_tools) (pyTruthy w10msg.strip_leading_newlines)
    ∧ svc_send_prompt w10sc none (pyStrOrEmpty w10msg.prompt) none =
      (.ok "s1", ⟨1, 0, 1,
        [AEv.evNewSession, AEv.evPrompt "s1" (pyStrOrEmpty w10msg.prompt)], []⟩) :=
  C10_blank_session_id w10msg "  " "s1" w10sc (some "end_turn") rfl rfl
    (by decide) (by decide) rfl (by decide) rfl (by decide)

theorem SvcInv_step (sid : String) (g : GSt) (i : Bool) (h : SvcInv g = true) :
    SvcInv (step sid g i) = true := by
  obtain ⟨lock, attached, ⟨st0, sent0⟩, ⟨st1, sent1⟩⟩ := g
  cases i <;> cases st0 <;> cases st1 <;> cases lock <;>
    rcases attached with _ | (_ | _) <;>
    simp_all [SvcInv, step, connStep, midC]

theorem SvcInv_run (sid : String) (sched : List Bool) :
    SvcInv (runSched sid g0 sched) = true := by
  suffices h : ∀ g, SvcInv g = true → SvcInv (runSched sid g sched) = true by
    exact h g0 (by decide)
  induction sched with
  | nil => intro g hg; simpa [runSched] using hg
  | cons i rest ih =>
    intro g hg
    simpa [runSched] using ih _ (SvcInv_step sid g i hg)

theorem start_sent_nil (sid : String) (sched : List Bool) :
    (runSched sid g0 sched).c1.st = CSt.start →
      (runSched sid g0 sched).c1 = ⟨CSt.start, []⟩ := by
  suffices h : ∀ g, (g.c1.st = CSt.start → g.c1 = ⟨CSt.start, []⟩) →
      ((runSched sid g sched).c1.st = CSt.start →
        (runSched sid g sched).c1 = ⟨CSt.start, []⟩) by
    exact h g0 (fun _ => rfl)
  induction sched with
  | nil => intro g hg; simpa [runSched] using hg
  | cons i rest ih =>
    intro g hg
    refine ih (step sid g i) ?_
    obtain ⟨lock, attached, ⟨st0, sent0⟩, ⟨st1, sent1⟩⟩ := g
    cases i <;> cases st1 <;> cases lock <;>
      simp_all [step, connStep]

theorem run_append_sched (sid : String) (g : GSt) (l1 l2 : List Bool) :
    runSched sid g (l1 ++ l2) = runSched sid (runSched sid g l1) l2 := by
  induction l1 generalizing g with
  | nil => rfl
  | cons i rest ih => simp [runSched, ih]

/-- C3: for any two concurrent connections — any schedule `pre` after
which one connection is mid-cycle and the other has not yet run — the
second connection's very first step rejects it: it ends closed with
exactly one message, the busy error (so it is never queued), while the
first connection, given its remaining steps, is serviced through to a
normal close with the terminal `done` message. Moreover along every
schedule the service invariant holds: at most one connection is
mid-cycle, the lock is held exactly then, and the single `_active` slot —
so at most one `ActiveRequest` — only ever points at the connection
driving its prompt. -/
theorem C3_single_flight (sid : String) (pre sched : List Bool)
    (h0 : midC ((runSched sid g0 pre).c0) = true)
    (h1 : ((runSched sid g0 pre).c1).st = CSt.start) :
    (runSched sid g0 (pre ++ [true])).c1 =
      ⟨CSt.finished true, [SockMsg.errorMsg busyErrText]⟩
    ∧ (runSched sid g0 (pre ++ [true, false, false])).c1 =
      ⟨CSt.finished true, [SockMsg.errorMsg busyErrText]⟩
    ∧ (runSched sid g0 (pre ++ [true, false, false])).c0.st = CSt.finished false
    ∧ SvcInv (runSched sid g0 sched) = true := by
  have hInv := SvcInv_run sid pre
  have hc1 : (runSched sid g0 pre).c1 = ⟨CSt.start, []⟩ := start_sent_nil sid pre h1
  have hlock : (runSched sid g0 pre).lock = true := by
    have hparts : ((runSched sid g0 pre).lock ==
        (midC (runSched sid g0 pre).c0 || midC (runSched sid g0 pre).c1)) = true := by
      simp only [SvcInv, Bool.and_eq_true] at hInv
      exact hInv.1.2
    rw [beq_iff_eq] at hparts
    rw [hparts, h0, Bool.true_or]
  rw [run_append_sched, run_append_sched]
  have hst0 : (runSched sid g0 pre).c0.st = CSt.waitMsg ∨
      (runSched sid g0 pre).c0.st = CSt.inPrompt := by
    unfold midC at h0
    rcases Bool.or_eq_true_iff.mp h0 with h | h
    · exact Or.inl (beq_iff_eq.mp h)
    · exact Or.inr (beq_iff_eq.mp h)
  refine ⟨?_, ?_, ?_, SvcInv_run sid sched⟩ <;>
    rcases hst0 with hst | hst <;>
    simp [runSched, step, connStep, hc1, hlock, hst]

theorem C3_single_flight_witness :
    (runSched "sess" g0 ([false] ++ [true])).c1 =
      ⟨CSt.finished true, [SockMsg.errorMsg busyErrText]⟩
    ∧ (runSched "sess" g0 ([false] ++ [true, false, false])).c1 =
      ⟨CSt.finished true, [SockMsg.errorMsg busyErrText]⟩
    ∧ (runSched "sess" g0 ([false] ++ [true, false, false])).c0.st =
      CSt.finished false
    ∧ SvcInv (runSched "sess" g0 [false, true, false]) = true :=
  C3_single_flight "sess" [false] [false, true, false] (by decide) (by decide)
